import Mathlib

/-
Shallow embedding of two components of the cubecl repository:

* `TensorView` and its operations `new`, `update_view`, `load_coalesced`,
  `write_coalesced` from
  `crates/cubecl-linalg/src/matmul/components/global/tensor_view/base.rs`.
  The `#[cube]` functions operate on `u32` values with GPU wrap-around
  semantics, so machine integers are embedded as `Nat` with an explicit
  `% 2^32` (the `u32` function below) wherever the source performs
  arithmetic.  The tensor buffer is embedded as total indexed storage of
  lines (`Nat → List E`) together with its metadata queries.

* `BarrierOps` and its renderer from `crates/cubecl-cpp/src/shared/barrier.rs`.
  The renderer produces the literal device-code fragment as a `String`.
  The `Variable` handle and `BarrierLevel` come from outside the embedded
  sources and are modelled from the spec (see their doc comments).
-/

namespace Cubecl

/-- Modulus of unsigned 32-bit machine integers used by the GPU IR. -/
def U32LIM : Nat := 4294967296

/-- Wrap a natural number into unsigned 32-bit range (u32 wrap-around semantics). -/
def u32 (n : Nat) : Nat := n % U32LIM

/-- Matmul operand tag (`Ident` in cubecl-linalg). -/
inductive Ident where
  | Lhs
  | Rhs
  | Out
deriving DecidableEq

/-- Matrix storage order of an operand (`MatrixLayout` in cubecl-linalg). -/
inductive MatrixLayout where
  | RowMajor
  | ColMajor
deriving DecidableEq

/-- Tile dimensions exposed by `config.stage_dim(ident)`. -/
structure StageDim where
  tile_size_x : Nat
  tile_size_y : Nat

/-- The comptime matmul configuration capability (`global::Config`) as consumed by
`TensorView`: per-operand line width, tile dimensions and layout, plus the two
bounds-check flags. -/
structure GlobalConfig where
  line_size : Ident → Nat
  stage_dim : Ident → StageDim
  layout : Ident → MatrixLayout
  check_m_bounds : Bool
  check_n_bounds : Bool

/-- A tensor handle as seen by the view (`Tensor<Line<E>>`): indexed line storage
plus the metadata queries the view uses (rank, per-dimension shape and stride,
line width of the buffer itself). -/
structure GpuTensor (E : Type) where
  data : Nat → List E
  rank : Nat
  shape : Nat → Nat
  stride : Nat → Nat
  line_size : Nat

/-- `TensorView<E>`: a tensor plus the pre-fetched offsets, strides, shapes and
batch offset (src lines 10-19). -/
structure TensorView (E : Type) where
  tensor : GpuTensor E
  x_offset : Nat
  y_offset : Nat
  stride_x : Nat
  stride_y : Nat
  shape_x : Nat
  shape_y : Nat
  batch_offset : Nat

variable {E ES : Type}

/-- `TensorView::new` (src lines 24-47): pre-fetch strides and shapes of the two
trailing dimensions and the batch stride of dimension `rank - 3`. -/
def TensorView.new (tensor : GpuTensor E) (x_offset y_offset nth_batch : Nat) :
    TensorView E :=
  let rank := tensor.rank
  let stride_x := tensor.stride (rank - 2)
  let stride_y := tensor.stride (rank - 1)
  let shape_x := tensor.shape (rank - 2)
  let shape_y := tensor.shape (rank - 1)
  let stride_b := tensor.stride (rank - 3)
  { tensor := tensor
    x_offset := x_offset
    y_offset := y_offset
    stride_x := stride_x
    stride_y := stride_y
    shape_x := shape_x
    shape_y := shape_y
    batch_offset := u32 (nth_batch * stride_b) }

/-- `TensorView::update_view` (src lines 50-60): advance the view along k. -/
def TensorView.update_view (self : TensorView E) (k_offset : Nat) (ident : Ident) :
    TensorView E :=
  match ident with
  | Ident.Lhs => { self with y_offset := u32 (self.y_offset + k_offset) }
  | Ident.Rhs => { self with x_offset := u32 (self.x_offset + k_offset) }
  | Ident.Out => self

/-- Intra-tile offset of a unit in `load_coalesced` (src lines 87-90): the match
on `config.layout(ident)`. -/
def loadOffset (layout : MatrixLayout) (tile_size_x tile_size_y unit_id : Nat) :
    Nat × Nat :=
  match layout with
  | MatrixLayout.RowMajor => (unit_id / tile_size_y, unit_id % tile_size_y)
  | MatrixLayout.ColMajor => (unit_id % tile_size_x, unit_id / tile_size_x)

/-- Absolute `(view_x, view_y)` coordinates accessed by a unit in
`load_coalesced` (src lines 84-93). -/
def TensorView.loadView (self : TensorView E) (tile_x tile_y unit_id : Nat)
    (ident : Ident) (config : GlobalConfig) : Nat × Nat :=
  let tile_size_x := (config.stage_dim ident).tile_size_x
  let tile_size_y := (config.stage_dim ident).tile_size_y
  let view_tile_x := u32 (tile_x * tile_size_x + self.x_offset)
  let view_tile_y := u32 (tile_y * tile_size_y + self.y_offset)
  let off := loadOffset (config.layout ident) tile_size_x tile_size_y unit_id
  (u32 (view_tile_x + off.1), u32 (view_tile_y + off.2))

/-- Linear physical position addressed at coordinates `(view_x, view_y)`
(the numerator of src lines 95-96 and 124). -/
def TensorView.linearPos (self : TensorView E) (view_x view_y : Nat) : Nat :=
  u32 (view_x * self.stride_x + view_y * self.stride_y + self.batch_offset)

/-- `read_pos` of `load_coalesced` (src lines 95-96): the linear position divided
by the configured line width. -/
def TensorView.loadReadPos (self : TensorView E) (tile_x tile_y unit_id : Nat)
    (ident : Ident) (config : GlobalConfig) : Nat :=
  let v := self.loadView tile_x tile_y unit_id ident config
  self.linearPos v.1 v.2 / config.line_size ident

/-- `TensorView::load_coalesced` (src lines 71-103): read the line at `read_pos`
when in bounds, else a zero-filled line of the configured width. -/
def TensorView.load_coalesced [Zero E] (self : TensorView E)
    (tile_x tile_y unit_id : Nat) (ident : Ident) (config : GlobalConfig) :
    List E :=
  let v := self.loadView tile_x tile_y unit_id ident config
  if v.1 < self.shape_x ∧ v.2 < self.shape_y then
    self.tensor.data (self.loadReadPos tile_x tile_y unit_id ident config)
  else
    List.replicate (config.line_size ident) 0

/-- `view_x` of `write_coalesced` (src lines 119-120): row-major unit mapping on
the `Out` stage dimensions. -/
def TensorView.writeViewX (self : TensorView E) (tile_x unit_id : Nat)
    (config : GlobalConfig) : Nat :=
  u32 (tile_x * (config.stage_dim Ident.Out).tile_size_x
    + unit_id / (config.stage_dim Ident.Out).tile_size_y + self.x_offset)

/-- `view_y` of `write_coalesced` (src lines 121-122). -/
def TensorView.writeViewY (self : TensorView E) (tile_y unit_id : Nat)
    (config : GlobalConfig) : Nat :=
  u32 (tile_y * (config.stage_dim Ident.Out).tile_size_y
    + unit_id % (config.stage_dim Ident.Out).tile_size_y + self.y_offset)

/-- `write_position` of `write_coalesced` (src lines 124-125): divided by the
destination tensor's own line width. -/
def TensorView.writePosition (self : TensorView E) (tile_x tile_y unit_id : Nat)
    (config : GlobalConfig) : Nat :=
  self.linearPos (self.writeViewX tile_x unit_id config)
      (self.writeViewY tile_y unit_id config)
    / self.tensor.line_size

/-- In-place store `tensor[pos] = line` on the view's buffer. -/
def TensorView.writeAt (self : TensorView E) (pos : Nat) (line : List E) :
    TensorView E :=
  { self with
    tensor :=
      { self.tensor with
        data := fun i => if i = pos then line else self.tensor.data i } }

/-- `TensorView::write_coalesced` (src lines 108-142): row-major mapping, then
the four bounds-check behaviors selected by the two comptime flags.
`Line::cast_from` is embedded as an element-wise cast `castElem`. -/
def TensorView.write_coalesced (self : TensorView E) (tile_x tile_y unit_id : Nat)
    (value : List ES) (castElem : ES → E) (config : GlobalConfig) : TensorView E :=
  let view_x := self.writeViewX tile_x unit_id config
  let view_y := self.writeViewY tile_y unit_id config
  let write_position := self.writePosition tile_x tile_y unit_id config
  if config.check_m_bounds then
    if config.check_n_bounds then
      if view_x < self.shape_x ∧ view_y < self.shape_y then
        self.writeAt write_position (value.map castElem)
      else self
    else
      if view_x < self.shape_x then
        self.writeAt write_position (value.map castElem)
      else self
  else
    if config.check_n_bounds then
      if view_y < self.shape_y then
        self.writeAt write_position (value.map castElem)
      else self
    else
      self.writeAt write_position (value.map castElem)

/-- Modelled from the spec: `Variable` (defined in cubecl-cpp outside the embedded
sources) is an opaque handle with an optional numeric identity (`id()`), a rendered
name (its `Display` output) and a rendered element type (`item()`). -/
structure Variable where
  id : Option Nat
  name : String
  item : String

/-- Modelled from the spec: `BarrierLevel` (cubecl-core IR, outside the embedded
sources) is either a single-thread barrier or a cube-level barrier carrying the
elected thread index expression (embedded by its rendering). -/
inductive BarrierLevel where
  | Unit
  | Cube (elected_unit : String)

/-- `BarrierOps` (src lines 8-21): the three barrier lifecycle operations. -/
inductive BarrierOps where
  | Init (barrier : Variable) (level : BarrierLevel)
  | MemCopyAsync (barrier : Variable) (source : Variable) (destination : Variable)
  | Wait (barrier : Variable)

/-- `BarrierOps::barrier_id` (src lines 24-30).  The source calls
`barrier.id().unwrap()`; the panic on a missing identity is embedded as `none`. -/
def BarrierOps.barrier_id : BarrierOps → Option Nat
  | BarrierOps.MemCopyAsync barrier _ _ => barrier.id
  | BarrierOps.Init barrier _ => barrier.id
  | BarrierOps.Wait barrier => barrier.id

/-- The barrier variable referenced by an operation (the `barrier` field of each
variant). -/
def BarrierOps.barrierRef : BarrierOps → Variable
  | BarrierOps.MemCopyAsync barrier _ _ => barrier
  | BarrierOps.Init barrier _ => barrier
  | BarrierOps.Wait barrier => barrier

/-- `Display for BarrierOps` (src lines 33-78): the literal code fragment written
for each operation.  String interpolation of a variable renders its `name`;
`{item}` renders the source's `item`.  Literal text is reproduced exactly,
including the leading and trailing newlines and the trailing spaces of the
`Init{Unit}` template. -/
def BarrierOps.fmt : BarrierOps → String
  | BarrierOps.MemCopyAsync barrier source destination =>
      let item := source.item
      let size := "sizeof(" ++ item ++ ")"
      "\ncuda::memcpy_async(" ++ destination.name ++ ", " ++ source.name ++ ", "
        ++ source.name ++ "_length * " ++ size ++ ", " ++ barrier.name ++ ");\n"
  | BarrierOps.Init barrier BarrierLevel.Unit =>
      "\ncuda::barrier<cuda::thread_scope_thread> " ++ barrier.name ++ ";\ninit(&"
        ++ barrier.name ++ ", 1);\n                "
  | BarrierOps.Init barrier (BarrierLevel.Cube elected_unit) =>
      "\n__shared__ cuda::barrier<cuda::thread_scope_block> " ++ barrier.name
        ++ ";\nif (threadIdxGlobal == " ++ elected_unit ++ ") \x7b\n   init(&"
        ++ barrier.name ++ ", blockDimGlobal);\n\x7d\n"
  | BarrierOps.Wait barrier =>
      "\n" ++ barrier.name ++ ".arrive_and_wait();\n"

/-- Spec-side description of the emitted byte count of an asynchronous copy: the
logical length of a variable times the size of its own element type. -/
def byteCountExpr (v : Variable) : String :=
  v.name ++ "_length * sizeof(" ++ v.item ++ ")"

/-- Spec-side description of a barrier object declaration in group-shared storage. -/
def sharedBarrierDecl (barrier : String) : String :=
  "\n__shared__ cuda::barrier<cuda::thread_scope_block> " ++ barrier ++ ";\n"

/-- Spec-side description of a barrier initialization call with an explicit
participant count. -/
def barrierInitCall (barrier count : String) : String :=
  "init(&" ++ barrier ++ ", " ++ count ++ ");"

/-- Spec-side description of a fragment guarded so that only the elected thread
executes the body. -/
def electedGuard (elected body : String) : String :=
  "if (threadIdxGlobal == " ++ elected ++ ") \x7b\n   " ++ body ++ "\n\x7d\n"

/-- Concrete rank-3 tensor used by the witnesses: shape `[4, 4, 4]`, row-major
strides `[16, 4, 1]`, line width 1, and distinct line contents per position. -/
def tensorW : GpuTensor Int :=
  { data := fun i => [Int.ofNat i + 7]
    rank := 3
    shape := fun _ => 4
    stride := fun i => if i = 0 then 16 else if i = 1 then 4 else 1
    line_size := 1 }

/-- Concrete view over `tensorW` for batch 1 with zero initial offsets. -/
def viewW : TensorView Int := TensorView.new tensorW 0 0 1

/-- Concrete configuration: line width 1, 2x2 tiles, row-major, both checks on. -/
def cfgA : GlobalConfig :=
  { line_size := fun _ => 1
    stage_dim := fun _ => { tile_size_x := 2, tile_size_y := 2 }
    layout := fun _ => MatrixLayout.RowMajor
    check_m_bounds := true
    check_n_bounds := true }

/-- Concrete configuration agreeing with `cfgA` on `stage_dim` and the check
flags but with a different layout and line width. -/
def cfgB : GlobalConfig :=
  { line_size := fun _ => 4
    stage_dim := fun _ => { tile_size_x := 2, tile_size_y := 2 }
    layout := fun _ => MatrixLayout.ColMajor
    check_m_bounds := true
    check_n_bounds := true }

/-- Concrete variables used by the barrier witnesses. -/
def varB : Variable := { id := some 1, name := "bar", item := "float" }

/-- Source variable with a `float` item. -/
def varS : Variable := { id := some 2, name := "src", item := "float" }

/-- Destination variable with a `double` item. -/
def varD : Variable := { id := some 3, name := "dst", item := "double" }

/-- Destination variable sharing `varD`'s rendered name but with another item. -/
def varD2 : Variable := { id := some 4, name := "dst", item := "uint" }

/-- Variable with no assigned identity. -/
def varN : Variable := { id := none, name := "nob", item := "float" }

/- Helper lemmas (shared infrastructure for the claim theorems). -/

theorem sdata_append (x y : String) : (x ++ y).data = x.data ++ y.data := by
  cases x
  cases y
  rfl

theorem sappend_assoc (a b c : String) : a ++ b ++ c = a ++ (b ++ c) := by
  cases a
  cases b
  cases c
  show String.mk _ = String.mk _
  rw [List.append_assoc]

theorem u32_congr {a b : Nat} (h : Nat.ModEq U32LIM a b) : u32 a = u32 b := h

theorem mod_succ_of_div_eq {u t : Nat} (h : (u + 1) / t = u / t) :
    (u + 1) % t = u % t + 1 := by
  rcases Nat.eq_zero_or_pos t with ht | ht
  · simp [ht, Nat.mod_zero]
  · have h1 := Nat.mod_add_div u t
    have h2 := Nat.mod_add_div (u + 1) t
    rw [h] at h2
    omega

theorem u32_linear_step_right (A v s c : Nat) :
    u32 (A + u32 (v + 1) * s + c) = u32 (u32 (A + u32 v * s + c) + s) := by
  apply u32_congr
  have e : A + (v + 1) * s + c = A + v * s + c + s := by ring
  have m1 : Nat.ModEq U32LIM (A + u32 (v + 1) * s + c) (A + (v + 1) * s + c) :=
    Nat.ModEq.add_right c (Nat.ModEq.add_left A ((Nat.mod_modEq (v + 1) U32LIM).mul_right s))
  have inner : Nat.ModEq U32LIM (A + u32 v * s + c) (A + v * s + c) :=
    Nat.ModEq.add_right c (Nat.ModEq.add_left A ((Nat.mod_modEq v U32LIM).mul_right s))
  have m2 : Nat.ModEq U32LIM (u32 (A + u32 v * s + c) + s) (A + v * s + c + s) :=
    Nat.ModEq.add_right s ((Nat.mod_modEq (A + u32 v * s + c) U32LIM).trans inner)
  exact (m1.trans (e ▸ Nat.ModEq.refl _)).trans m2.symm

theorem u32_linear_step_right' (A w a s c : Nat) :
    u32 (A + u32 (w + (a + 1)) * s + c) = u32 (u32 (A + u32 (w + a) * s + c) + s) := by
  have e : w + (a + 1) = w + a + 1 := by ring
  rw [e]
  exact u32_linear_step_right A (w + a) s c

theorem u32_linear_step_left (v s B c : Nat) :
    u32 (u32 (v + 1) * s + B + c) = u32 (u32 (u32 v * s + B + c) + s) := by
  apply u32_congr
  have e : (v + 1) * s + B + c = v * s + B + c + s := by ring
  have m1 : Nat.ModEq U32LIM (u32 (v + 1) * s + B + c) ((v + 1) * s + B + c) :=
    Nat.ModEq.add_right c (Nat.ModEq.add_right B ((Nat.mod_modEq (v + 1) U32LIM).mul_right s))
  have inner : Nat.ModEq U32LIM (u32 v * s + B + c) (v * s + B + c) :=
    Nat.ModEq.add_right c (Nat.ModEq.add_right B ((Nat.mod_modEq v U32LIM).mul_right s))
  have m2 : Nat.ModEq U32LIM (u32 (u32 v * s + B + c) + s) (v * s + B + c + s) :=
    Nat.ModEq.add_right s ((Nat.mod_modEq (u32 v * s + B + c) U32LIM).trans inner)
  exact (m1.trans (e ▸ Nat.ModEq.refl _)).trans m2.symm

theorem u32_linear_step_left' (w a s B c : Nat) :
    u32 (u32 (w + (a + 1)) * s + B + c) = u32 (u32 (u32 (w + a) * s + B + c) + s) := by
  have e : w + (a + 1) = w + a + 1 := by ring
  rw [e]
  exact u32_linear_step_left (w + a) s B c

theorem write_coalesced_cases (self : TensorView E) (tile_x tile_y unit_id : Nat)
    (value : List ES) (castElem : ES → E) (config : GlobalConfig) :
    self.write_coalesced tile_x tile_y unit_id value castElem config =
        self.writeAt (self.writePosition tile_x tile_y unit_id config)
          (value.map castElem)
      ∨ self.write_coalesced tile_x tile_y unit_id value castElem config = self := by
  unfold TensorView.write_coalesced
  dsimp only
  split
  · split
    · split
      · exact Or.inl rfl
      · exact Or.inr rfl
    · split
      · exact Or.inl rfl
      · exact Or.inr rfl
  · split
    · split
      · exact Or.inl rfl
      · exact Or.inr rfl
    · exact Or.inl rfl

/- Claim theorems. -/

/-- C1: `write_coalesced` writes to the underlying buffer iff the bounds-check
flags permit it: with `check_m_bounds` set the write additionally requires
`view_x < shape_x`, with `check_n_bounds` set it additionally requires
`view_y < shape_y`, and with neither flag set it happens unconditionally for
every `(tile_x, tile_y, unit_id)` triple. -/
theorem write_coalesced_guarded_by_bounds_flags (self : TensorView E)
    (tile_x tile_y unit_id : Nat) (value : List ES) (castElem : ES → E)
    (config : GlobalConfig) :
    self.write_coalesced tile_x tile_y unit_id value castElem config =
      if (config.check_m_bounds = false
            ∨ self.writeViewX tile_x unit_id config < self.shape_x)
          ∧ (config.check_n_bounds = false
            ∨ self.writeViewY tile_y unit_id config < self.shape_y) then
        self.writeAt (self.writePosition tile_x tile_y unit_id config)
          (value.map castElem)
      else self := by
  unfold TensorView.write_coalesced
  dsimp only
  cases hm : config.check_m_bounds <;> cases hn : config.check_n_bounds <;>
    simp only [Bool.true_eq_false, false_or, true_or, true_and, and_true,
      or_true, if_true, if_false, eq_self_iff_true] <;>
    split_ifs <;> first | rfl | tauto

/-- C2: `load_coalesced` returns a zero-filled line of the configured line width
whenever the computed coordinates fall out of bounds (independently of the
buffer contents), and otherwise returns the line read at position
`(view_x*stride_x + view_y*stride_y + batch_offset) / line_width`. -/
theorem load_coalesced_zero_fill_or_read [Zero E] (self : TensorView E)
    (tile_x tile_y unit_id : Nat) (ident : Ident) (config : GlobalConfig) :
    (self.shape_x ≤ (self.loadView tile_x tile_y unit_id ident config).1
        ∨ self.shape_y ≤ (self.loadView tile_x tile_y unit_id ident config).2 →
      self.load_coalesced tile_x tile_y unit_id ident config =
        List.replicate (config.line_size ident) 0)
    ∧ ((self.loadView tile_x tile_y unit_id ident config).1 < self.shape_x
        ∧ (self.loadView tile_x tile_y unit_id ident config).2 < self.shape_y →
      self.load_coalesced tile_x tile_y unit_id ident config =
        self.tensor.data
          (u32 ((self.loadView tile_x tile_y unit_id ident config).1 * self.stride_x
              + (self.loadView tile_x tile_y unit_id ident config).2 * self.stride_y
              + self.batch_offset)
            / config.line_size ident)) := by
  constructor
  · intro h
    unfold TensorView.load_coalesced
    dsimp only
    rw [if_neg (by omega)]
  · intro h
    unfold TensorView.load_coalesced
    dsimp only
    rw [if_pos h]
    rfl

/-- C6: `update_view` with `Lhs` increments `y_offset` by `k` (in u32
arithmetic) touching no other offset, with `Rhs` increments `x_offset`
analogously, and with `Out` changes nothing; advancing by `k` and then by the
u32 negation of `k` restores the original offset. -/
theorem update_view_advance_roundtrip (self : TensorView E) (k : Nat)
    (hx : self.x_offset < U32LIM) (hy : self.y_offset < U32LIM)
    (hk : k < U32LIM) :
    ((self.update_view k Ident.Lhs).update_view ((U32LIM - k) % U32LIM)
        Ident.Lhs).y_offset = self.y_offset
    ∧ (self.update_view k Ident.Lhs).y_offset = u32 (self.y_offset + k)
    ∧ (self.update_view k Ident.Lhs).x_offset = self.x_offset
    ∧ ((self.update_view k Ident.Rhs).update_view ((U32LIM - k) % U32LIM)
        Ident.Rhs).x_offset = self.x_offset
    ∧ (self.update_view k Ident.Rhs).x_offset = u32 (self.x_offset + k)
    ∧ (self.update_view k Ident.Rhs).y_offset = self.y_offset
    ∧ self.update_view k Ident.Out = self := by
  refine ⟨?_, rfl, rfl, ?_, rfl, rfl, rfl⟩
  · simp only [TensorView.update_view, u32, U32LIM] at *
    omega
  · simp only [TensorView.update_view, u32, U32LIM] at *
    omega

/-- C6 witness: the round trip at `k = 5` on the concrete view restores the
original `y_offset`. -/
theorem update_view_advance_roundtrip_witness :
    viewW.x_offset < U32LIM ∧ viewW.y_offset < U32LIM ∧ 5 < U32LIM
    ∧ ((viewW.update_view 5 Ident.Lhs).update_view ((U32LIM - 5) % U32LIM)
        Ident.Lhs).y_offset = viewW.y_offset :=
  ⟨by decide, by decide, by decide,
    (update_view_advance_roundtrip viewW 5 (by decide) (by decide) (by decide)).1⟩

/-- C7: `TensorView::new` binds `stride_x`/`shape_x` to dimension `rank - 2`,
`stride_y`/`shape_y` to dimension `rank - 1`, sets
`batch_offset = nth_batch * stride (rank - 3)` (u32 arithmetic), and passes the
two initial offsets through, for every buffer of rank at least 3. -/
theorem tensor_view_new_fields (tensor : GpuTensor E) (x y b : Nat)
    (_h : 3 ≤ tensor.rank) :
    (TensorView.new tensor x y b).tensor = tensor
    ∧ (TensorView.new tensor x y b).stride_x = tensor.stride (tensor.rank - 2)
    ∧ (TensorView.new tensor x y b).shape_x = tensor.shape (tensor.rank - 2)
    ∧ (TensorView.new tensor x y b).stride_y = tensor.stride (tensor.rank - 1)
    ∧ (TensorView.new tensor x y b).shape_y = tensor.shape (tensor.rank - 1)
    ∧ (TensorView.new tensor x y b).batch_offset
        = u32 (b * tensor.stride (tensor.rank - 3))
    ∧ (TensorView.new tensor x y b).x_offset = x
    ∧ (TensorView.new tensor x y b).y_offset = y :=
  ⟨rfl, rfl, rfl, rfl, rfl, rfl, rfl, rfl⟩

/-- C7 witness: the constructor field equations at the concrete rank-3 tensor. -/
theorem tensor_view_new_fields_witness :
    3 ≤ tensorW.rank
    ∧ (TensorView.new tensorW 1 2 1).batch_offset
        = u32 (1 * tensorW.stride (tensorW.rank - 3)) :=
  ⟨by decide, (tensor_view_new_fields tensorW 1 2 1 (by decide)).2.2.2.2.2.1⟩

/-- C9: `barrier_id` returns the identity assigned to the referenced barrier
variable for all three variants, and fails (here: `none`, the embedding of the
`unwrap` panic) exactly when that variable has no assigned identity. -/
theorem barrier_id_returns_assigned_identity (op : BarrierOps) :
    (∀ i : Nat, op.barrierRef.id = some i → op.barrier_id = some i)
    ∧ (op.barrierRef.id = none → op.barrier_id = none) := by
  cases op <;> exact ⟨fun _ h => h, fun h => h⟩

/-- C9 witness: a `Wait` on a barrier with identity 1 yields identity 1, and a
copy through a barrier with no identity fails. -/
theorem barrier_id_returns_assigned_identity_witness :
    (BarrierOps.Wait varB).barrier_id = some 1
    ∧ (BarrierOps.MemCopyAsync varN varS varD).barrier_id = none :=
  ⟨(barrier_id_returns_assigned_identity (BarrierOps.Wait varB)).1 1 rfl,
    (barrier_id_returns_assigned_identity
      (BarrierOps.MemCopyAsync varN varS varD)).2 rfl⟩

/-- C2 witness: with the concrete view and configuration, tile `(2, 2)` is out
of bounds and yields the zero line, while tile `(1, 1)` with `unit_id = 3`
reads the line at linear position 31 (logical `(row 3, col 3)` of batch 1). -/
theorem load_coalesced_zero_fill_or_read_witness :
    (viewW.shape_x ≤ (viewW.loadView 2 2 0 Ident.Lhs cfgA).1
      ∨ viewW.shape_y ≤ (viewW.loadView 2 2 0 Ident.Lhs cfgA).2)
    ∧ viewW.load_coalesced 2 2 0 Ident.Lhs cfgA = List.replicate 1 (0 : Int)
    ∧ viewW.load_coalesced 1 1 3 Ident.Lhs cfgA = viewW.tensor.data 31 :=
  ⟨by decide,
    (load_coalesced_zero_fill_or_read viewW 2 2 0 Ident.Lhs cfgA).1 (by decide),
    (load_coalesced_zero_fill_or_read viewW 1 1 3 Ident.Lhs cfgA).2 (by decide)⟩

/-- C3: in `load_coalesced` the intra-tile offset of a unit is
`(unit_id / tile_size_y, unit_id % tile_size_y)` under row-major layout and
`(unit_id % tile_size_x, unit_id / tile_size_x)` under column-major layout, and
consecutive units within one row (row-major) address physical positions exactly
one `stride_y` apart, with the analogous `stride_x` contiguity for
column-major. -/
theorem load_unit_mapping_and_coalescing (self : TensorView E)
    (config : GlobalConfig) (ident : Ident) (tile_x tile_y unit_id : Nat) :
    loadOffset MatrixLayout.RowMajor (config.stage_dim ident).tile_size_x
        (config.stage_dim ident).tile_size_y unit_id
      = (unit_id / (config.stage_dim ident).tile_size_y,
          unit_id % (config.stage_dim ident).tile_size_y)
    ∧ loadOffset MatrixLayout.ColMajor (config.stage_dim ident).tile_size_x
        (config.stage_dim ident).tile_size_y unit_id
      = (unit_id % (config.stage_dim ident).tile_size_x,
          unit_id / (config.stage_dim ident).tile_size_x)
    ∧ (config.layout ident = MatrixLayout.RowMajor →
        (unit_id + 1) / (config.stage_dim ident).tile_size_y
          = unit_id / (config.stage_dim ident).tile_size_y →
        self.linearPos (self.loadView tile_x tile_y (unit_id + 1) ident config).1
            (self.loadView tile_x tile_y (unit_id + 1) ident config).2
          = u32 (self.linearPos
              (self.loadView tile_x tile_y unit_id ident config).1
              (self.loadView tile_x tile_y unit_id ident config).2
              + self.stride_y))
    ∧ (config.layout ident = MatrixLayout.ColMajor →
        (unit_id + 1) / (config.stage_dim ident).tile_size_x
          = unit_id / (config.stage_dim ident).tile_size_x →
        self.linearPos (self.loadView tile_x tile_y (unit_id + 1) ident config).1
            (self.loadView tile_x tile_y (unit_id + 1) ident config).2
          = u32 (self.linearPos
              (self.loadView tile_x tile_y unit_id ident config).1
              (self.loadView tile_x tile_y unit_id ident config).2
              + self.stride_x)) := by
  refine ⟨rfl, rfl, ?_, ?_⟩
  · intro hl hdiv
    have hm := mod_succ_of_div_eq hdiv
    simp only [TensorView.loadView, TensorView.linearPos, loadOffset, hl]
    rw [hdiv, hm]
    exact u32_linear_step_right' _ _ _ _ _
  · intro hl hdiv
    have hm := mod_succ_of_div_eq hdiv
    simp only [TensorView.loadView, TensorView.linearPos, loadOffset, hl]
    rw [hdiv, hm]
    exact u32_linear_step_left' _ _ _ _ _

/-- C3 witness: on the concrete view, units 0 and 1 of tile `(1, 1)` address
positions one `stride_y` apart under the row-major configuration and one
`stride_x` apart under the column-major configuration. -/
theorem load_unit_mapping_and_coalescing_witness :
    (1 : Nat) / 2 = 0 / 2
    ∧ viewW.linearPos (viewW.loadView 1 1 1 Ident.Lhs cfgA).1
        (viewW.loadView 1 1 1 Ident.Lhs cfgA).2
      = u32 (viewW.linearPos (viewW.loadView 1 1 0 Ident.Lhs cfgA).1
          (viewW.loadView 1 1 0 Ident.Lhs cfgA).2 + viewW.stride_y)
    ∧ viewW.linearPos (viewW.loadView 1 1 1 Ident.Lhs cfgB).1
        (viewW.loadView 1 1 1 Ident.Lhs cfgB).2
      = u32 (viewW.linearPos (viewW.loadView 1 1 0 Ident.Lhs cfgB).1
          (viewW.loadView 1 1 0 Ident.Lhs cfgB).2 + viewW.stride_x) :=
  ⟨by decide,
    (load_unit_mapping_and_coalescing viewW cfgA Ident.Lhs 1 1 0).2.2.1 rfl
      (by decide),
    (load_unit_mapping_and_coalescing viewW cfgB Ident.Lhs 1 1 0).2.2.2 rfl
      (by decide)⟩

/-- C4: the rendered `MemCopyAsync` fragment's byte count expression is
`length(source) * sizeof(item(source))`, built from the source variable's name
and element type; the destination contributes only its name, so its element
type never affects the fragment. -/
theorem async_copy_byte_count_from_source (barrier source destination : Variable) :
    BarrierOps.fmt (BarrierOps.MemCopyAsync barrier source destination)
      = "\ncuda::memcpy_async(" ++ destination.name ++ ", " ++ source.name
        ++ ", " ++ byteCountExpr source ++ ", " ++ barrier.name ++ ");\n"
    ∧ ∀ destination2 : Variable, destination2.name = destination.name →
        BarrierOps.fmt (BarrierOps.MemCopyAsync barrier source destination2)
          = BarrierOps.fmt (BarrierOps.MemCopyAsync barrier source destination) := by
  constructor
  · apply String.ext
    simp [BarrierOps.fmt, byteCountExpr, sdata_append, List.append_assoc]
  · intro destination2 h
    simp [BarrierOps.fmt, h]

/-- C4 witness: two destinations sharing a name but with different element
types render the same fragment. -/
theorem async_copy_byte_count_from_source_witness :
    varD2.name = varD.name
    ∧ BarrierOps.fmt (BarrierOps.MemCopyAsync varB varS varD2)
      = BarrierOps.fmt (BarrierOps.MemCopyAsync varB varS varD) :=
  ⟨rfl, (async_copy_byte_count_from_source varB varS varD).2 varD2 rfl⟩

/-- C5: rendering `Init` at `BarrierLevel::Cube(t)` declares the barrier object
in group-shared storage and places the initialization call, whose participant
count is the full thread count of the cooperative group (`blockDimGlobal`),
inside a conditional guard comparing the current thread index to `t`. -/
theorem init_cube_elected_guard (barrier : Variable) (elected : String) :
    BarrierOps.fmt (BarrierOps.Init barrier (BarrierLevel.Cube elected))
      = sharedBarrierDecl barrier.name
        ++ electedGuard elected (barrierInitCall barrier.name "blockDimGlobal") := by
  apply String.ext
  simp [BarrierOps.fmt, sharedBarrierDecl, electedGuard, barrierInitCall,
    sdata_append, List.append_assoc]

/-- C8: `write_coalesced` always uses the row-major unit mapping
`view_x = tile_x*tile_size_x + unit_id/tile_size_y + x_offset`,
`view_y = tile_y*tile_size_y + unit_id%tile_size_y + y_offset` (u32 arithmetic)
and divides the linear position by the destination buffer's own line width; its
result is unchanged by any configuration that agrees on the `Out` stage
dimensions and the check flags but differs in layout or configured line
width. -/
theorem write_coalesced_row_major_dest_line_width (self : TensorView E)
    (tile_x tile_y unit_id : Nat) (value : List ES) (castElem : ES → E)
    (config config2 : GlobalConfig)
    (hsd : config2.stage_dim Ident.Out = config.stage_dim Ident.Out)
    (hm : config2.check_m_bounds = config.check_m_bounds)
    (hn : config2.check_n_bounds = config.check_n_bounds) :
    self.writeViewX tile_x unit_id config
      = u32 (tile_x * (config.stage_dim Ident.Out).tile_size_x
          + unit_id / (config.stage_dim Ident.Out).tile_size_y + self.x_offset)
    ∧ self.writeViewY tile_y unit_id config
      = u32 (tile_y * (config.stage_dim Ident.Out).tile_size_y
          + unit_id % (config.stage_dim Ident.Out).tile_size_y + self.y_offset)
    ∧ self.writePosition tile_x tile_y unit_id config
      = u32 (self.writeViewX tile_x unit_id config * self.stride_x
          + self.writeViewY tile_y unit_id config * self.stride_y
          + self.batch_offset) / self.tensor.line_size
    ∧ self.write_coalesced tile_x tile_y unit_id value castElem config2
      = self.write_coalesced tile_x tile_y unit_id value castElem config := by
  refine ⟨rfl, rfl, rfl, ?_⟩
  simp only [TensorView.write_coalesced, TensorView.writeViewX,
    TensorView.writeViewY, TensorView.writePosition, TensorView.linearPos,
    hsd, hm, hn]

/-- C8 witness: the row-major and column-major configurations (which also
disagree on the configured line width) produce the same write on the concrete
view. -/
theorem write_coalesced_row_major_dest_line_width_witness :
    cfgB.stage_dim Ident.Out = cfgA.stage_dim Ident.Out
    ∧ viewW.write_coalesced 0 0 0 [(3 : Int)] id cfgB
      = viewW.write_coalesced 0 0 0 [(3 : Int)] id cfgA :=
  ⟨rfl,
    (write_coalesced_row_major_dest_line_width viewW 0 0 0 [(3 : Int)] id
      cfgA cfgB rfl rfl rfl).2.2.2⟩

/-- C10: `update_view` with `Lhs` changes only `y_offset`, with `Rhs` only
`x_offset`; `write_coalesced` preserves every view field and all tensor
metadata, modifying the buffer contents at most at the single computed write
position.  (`load_coalesced` takes the view immutably and returns only a line,
so its frame condition holds by construction of the embedding.) -/
theorem view_operations_frame (self : TensorView E)
    (k tile_x tile_y unit_id : Nat) (value : List ES) (castElem : ES → E)
    (config : GlobalConfig) :
    ((self.update_view k Ident.Lhs).tensor = self.tensor
      ∧ (self.update_view k Ident.Lhs).x_offset = self.x_offset
      ∧ (self.update_view k Ident.Lhs).stride_x = self.stride_x
      ∧ (self.update_view k Ident.Lhs).stride_y = self.stride_y
      ∧ (self.update_view k Ident.Lhs).shape_x = self.shape_x
      ∧ (self.update_view k Ident.Lhs).shape_y = self.shape_y
      ∧ (self.update_view k Ident.Lhs).batch_offset = self.batch_offset)
    ∧ ((self.update_view k Ident.Rhs).tensor = self.tensor
      ∧ (self.update_view k Ident.Rhs).y_offset = self.y_offset
      ∧ (self.update_view k Ident.Rhs).stride_x = self.stride_x
      ∧ (self.update_view k Ident.Rhs).stride_y = self.stride_y
      ∧ (self.update_view k Ident.Rhs).shape_x = self.shape_x
      ∧ (self.update_view k Ident.Rhs).shape_y = self.shape_y
      ∧ (self.update_view k Ident.Rhs).batch_offset = self.batch_offset)
    ∧ ((∀ i : Nat, i ≠ self.writePosition tile_x tile_y unit_id config →
          (self.write_coalesced tile_x tile_y unit_id value castElem
            config).tensor.data i = self.tensor.data i)
      ∧ (self.write_coalesced tile_x tile_y unit_id value castElem
          config).x_offset = self.x_offset
      ∧ (self.write_coalesced tile_x tile_y unit_id value castElem
          config).y_offset = self.y_offset
      ∧ (self.write_coalesced tile_x tile_y unit_id value castElem
          config).stride_x = self.stride_x
      ∧ (self.write_coalesced tile_x tile_y unit_id value castElem
          config).stride_y = self.stride_y
      ∧ (self.write_coalesced tile_x tile_y unit_id value castElem
          config).shape_x = self.shape_x
      ∧ (self.write_coalesced tile_x tile_y unit_id value castElem
          config).shape_y = self.shape_y
      ∧ (self.write_coalesced tile_x tile_y unit_id value castElem
          config).batch_offset = self.batch_offset
      ∧ (self.write_coalesced tile_x tile_y unit_id value castElem
          config).tensor.rank = self.tensor.rank
      ∧ (self.write_coalesced tile_x tile_y unit_id value castElem
          config).tensor.shape = self.tensor.shape
      ∧ (self.write_coalesced tile_x tile_y unit_id value castElem
          config).tensor.stride = self.tensor.stride
      ∧ (self.write_coalesced tile_x tile_y unit_id value castElem
          config).tensor.line_size = self.tensor.line_size) := by
  refine ⟨⟨rfl, rfl, rfl, rfl, rfl, rfl, rfl⟩,
    ⟨rfl, rfl, rfl, rfl, rfl, rfl, rfl⟩, ?_⟩
  rcases write_coalesced_cases self tile_x tile_y unit_id value castElem config
    with hw | hw <;> rw [hw]
  · refine ⟨?_, rfl, rfl, rfl, rfl, rfl, rfl, rfl, rfl, rfl, rfl, rfl⟩
    intro i hi
    simp only [TensorView.writeAt]
    exact if_neg hi
  · exact ⟨fun i _ => rfl, rfl, rfl, rfl, rfl, rfl, rfl, rfl, rfl, rfl, rfl, rfl⟩

/-- C10 witness: the concrete write leaves position 0 (distinct from the
computed write position 16) untouched. -/
theorem view_operations_frame_witness :
    (0 : Nat) ≠ viewW.writePosition 0 0 0 cfgA
    ∧ (viewW.write_coalesced 0 0 0 [(3 : Int)] id cfgA).tensor.data 0
      = viewW.tensor.data 0 :=
  ⟨by decide,
    (view_operations_frame viewW 5 0 0 0 [(3 : Int)] id cfgA).2.2.1 0 (by decide)⟩

end Cubecl
